import Mathlib

/-!
Verification of the sound-playback handle of `src/src/audio/sound.rs`
(rust-sfml's `Sound` wrapper over the CSFML audio engine).

The Rust file is a thin safe wrapper: every method forwards to one
`ffi::sfSound_*` engine call. The engine itself (CSFML) is not part of
the repository sources, so the engine-side state and the effect of each
`sfSound_*` call are modelled from the specification (spec.md sections
3, 4.1) and from the doc comments in `sound.rs`, which restate the
engine's documented transition semantics. The wrapper-side definitions
(`Sound.new`, `Sound.play`, ...) are translated directly from the Rust
source.

Modelling conventions:
- `f32` values are only stored and returned by this layer, never
  computed with, so they are modelled as `Rat` (an exact stand-in for
  the bit-pattern identity the wrapper preserves).
- The microsecond `Time` playing offset is modelled as `Int`.
- Foreign pointers are modelled by their identity, a `Nat`; a null
  pointer is `Option.none`.
- A Rust `panic!` is modelled as `Except.error` carrying the panic
  message; a normal return is `Except.ok`.
- `sfBool` round-trips through `from_bool` / `to_bool` as the identity
  on `Bool`, so engine booleans are modelled as `Bool` directly.
-/

/-- Playback status of a sound, mirroring `audio::SoundStatus`
(which mirrors CSFML's `sfSoundStatus` C enum). -/
inductive SoundStatus where
  | stopped
  | paused
  | playing
deriving DecidableEq, Repr

/-- Modelled from the spec: the numeric code of the C enum
`sfSoundStatus` that the engine call `sfSound_getStatus` returns
(`sfStopped = 0`, `sfPaused = 1`, `sfPlaying = 2`). -/
def statusCode : SoundStatus → Nat
  | .stopped => 0
  | .paused => 1
  | .playing => 2

/-- The `mem::transmute` in `Sound::status`, made explicit: the numeric
engine code reinterpreted as a `SoundStatus`. `none` stands for the
undefined behaviour a transmute of an out-of-range code would be. -/
def statusFromCode : Nat → Option SoundStatus
  | 0 => some .stopped
  | 1 => some .paused
  | 2 => some .playing
  | _ => none

/-- A 3D position, mirroring `system::Vector3f` (three `f32` fields). -/
structure Vector3f where
  x : Rat
  y : Rat
  z : Rat
deriving DecidableEq, Repr

/-- The `Raw` conversion `Vector3f::raw` to the C struct `sfVector3f`;
both are three packed floats, so the conversion is the identity. -/
def Vector3f.raw (p : Vector3f) : Vector3f := p

/-- The `FromRaw` conversion from the C struct `sfVector3f`. -/
def Vector3f.from_raw (p : Vector3f) : Vector3f := p

/-- Modelled from the spec: the engine-side state of one voice (the
object behind the `*mut ffi::sfSound` handle): playback status,
playing offset, looping flag, attached buffer pointer (none = null),
and the independent spatial and output parameters of spec section 3. -/
structure Voice where
  status : SoundStatus
  offset : Int
  looping : Bool
  buffer : Option Nat
  pitch : Rat
  volume : Rat
  position : Vector3f
  relativeToListener : Bool
  minDistance : Rat
  attenuation : Rat
deriving DecidableEq, Repr

/-- Modelled from the spec: the state of a freshly allocated voice — a
new, empty, stopped handle: status Stopped, offset 0, not looping, no
buffer attached, engine default parameters (pitch 1, volume 100,
position origin, not listener-relative, min-distance 1,
attenuation 1). -/
def defaultVoice : Voice where
  status := .stopped
  offset := 0
  looping := false
  buffer := none
  pitch := 1
  volume := 100
  position := ⟨0, 0, 0⟩
  relativeToListener := false
  minDistance := 1
  attenuation := 1

/-- Modelled from the spec: `ffi::sfSound_create`. Voice allocation can
fail from resource exhaustion, in which case the engine returns a null
handle (`none`); on success it returns a fresh voice in the default
state. The `alloc` flag models whether the engine can allocate. -/
def sfSound_create (alloc : Bool) : Option Voice :=
  if alloc then some defaultVoice else none

/-- Modelled from the spec: `ffi::sfSound_copy`. Under the same
resource-exhaustion condition as `sfSound_create` it returns null;
otherwise it duplicates all current parameter values and the buffer
attachment into a new voice with an independent playback cursor. -/
def sfSound_copy (alloc : Bool) (v : Voice) : Option Voice :=
  if alloc then some { v with status := .stopped, offset := 0 } else none

/-- Modelled from the spec: `ffi::sfSound_play`. Starts the voice if it
was stopped (from offset 0), resumes it if it was paused (from the
current offset), and restarts it from the beginning if it was already
playing. -/
def sfSound_play (v : Voice) : Voice :=
  match v.status with
  | .stopped => { v with status := .playing, offset := 0 }
  | .paused => { v with status := .playing }
  | .playing => { v with offset := 0 }

/-- Modelled from the spec: `ffi::sfSound_pause`. Pauses the voice if
it was playing, freezing the offset; otherwise it has no effect. -/
def sfSound_pause (v : Voice) : Voice :=
  match v.status with
  | .playing => { v with status := .paused }
  | _ => v

/-- Modelled from the spec: `ffi::sfSound_stop`. Stops the voice
unconditionally and resets the playing position to 0. -/
def sfSound_stop (v : Voice) : Voice :=
  { v with status := .stopped, offset := 0 }

/-- Modelled from the spec: `ffi::sfSound_getStatus`, returning the
numeric `sfSoundStatus` code of the voice's live state. -/
def sfSound_getStatus (v : Voice) : Nat :=
  statusCode v.status

/-- Modelled from the spec: `ffi::sfSound_setBuffer`. Stores the buffer
pointer on the voice without copying the sample data and without
touching the transport state. -/
def sfSound_setBuffer (v : Voice) (b : Nat) : Voice :=
  { v with buffer := some b }

/-- Modelled from the spec: `ffi::sfSound_getBuffer`, returning the
attached buffer pointer, or null when none is attached. -/
def sfSound_getBuffer (v : Voice) : Option Nat :=
  v.buffer

/-- Modelled from the spec: `ffi::sfSound_setLoop`. -/
def sfSound_setLoop (v : Voice) (l : Bool) : Voice :=
  { v with looping := l }

/-- Modelled from the spec: `ffi::sfSound_getLoop`. -/
def sfSound_getLoop (v : Voice) : Bool :=
  v.looping

/-- Modelled from the spec: `ffi::sfSound_getPlayingOffset`. -/
def sfSound_getPlayingOffset (v : Voice) : Int :=
  v.offset

/-- Modelled from the spec: `ffi::sfSound_setPlayingOffset`. Sets the
read head while paused or playing; while stopped it is harmless (the
next `play` starts from offset 0 regardless). -/
def sfSound_setPlayingOffset (v : Voice) (t : Int) : Voice :=
  match v.status with
  | .stopped => v
  | _ => { v with offset := t }

/-- Modelled from the spec: `ffi::sfSound_setPitch`. -/
def sfSound_setPitch (v : Voice) (p : Rat) : Voice :=
  { v with pitch := p }

/-- Modelled from the spec: `ffi::sfSound_getPitch`. -/
def sfSound_getPitch (v : Voice) : Rat :=
  v.pitch

/-- Modelled from the spec: `ffi::sfSound_setVolume`. -/
def sfSound_setVolume (v : Voice) (vol : Rat) : Voice :=
  { v with volume := vol }

/-- Modelled from the spec: `ffi::sfSound_getVolume`. -/
def sfSound_getVolume (v : Voice) : Rat :=
  v.volume

/-- Modelled from the spec: `ffi::sfSound_setPosition`. -/
def sfSound_setPosition (v : Voice) (p : Vector3f) : Voice :=
  { v with position := p }

/-- Modelled from the spec: `ffi::sfSound_getPosition`. -/
def sfSound_getPosition (v : Voice) : Vector3f :=
  v.position

/-- Modelled from the spec: `ffi::sfSound_setRelativeToListener`. -/
def sfSound_setRelativeToListener (v : Voice) (r : Bool) : Voice :=
  { v with relativeToListener := r }

/-- Modelled from the spec: `ffi::sfSound_isRelativeToListener`. -/
def sfSound_isRelativeToListener (v : Voice) : Bool :=
  v.relativeToListener

/-- Modelled from the spec: `ffi::sfSound_setMinDistance`. -/
def sfSound_setMinDistance (v : Voice) (d : Rat) : Voice :=
  { v with minDistance := d }

/-- Modelled from the spec: `ffi::sfSound_getMinDistance`. -/
def sfSound_getMinDistance (v : Voice) : Rat :=
  v.minDistance

/-- Modelled from the spec: `ffi::sfSound_setAttenuation`. -/
def sfSound_setAttenuation (v : Voice) (a : Rat) : Voice :=
  { v with attenuation := a }

/-- Modelled from the spec: `ffi::sfSound_getAttenuation`. -/
def sfSound_getAttenuation (v : Voice) : Rat :=
  v.attenuation

/-- `Sound::new`: calls `sfSound_create`; panics with the message
`sfSound_create returned null.` if the engine returned null, otherwise
wraps the non-null voice handle. The `PhantomData` borrow marker is
zero-sized and carries no state. -/
def Sound.new (alloc : Bool) : Except String Voice :=
  match sfSound_create alloc with
  | none => .error "sfSound_create returned null."
  | some s => .ok s

/-- `Sound::with_buffer`: calls `sfSound_create`; panics with the same
message on null, otherwise attaches the buffer via `sfSound_setBuffer`
and wraps the voice. -/
def Sound.with_buffer (alloc : Bool) (b : Nat) : Except String Voice :=
  match sfSound_create alloc with
  | none => .error "sfSound_create returned null."
  | some s => .ok (sfSound_setBuffer s b)

/-- `Clone for Sound`: calls `sfSound_copy`; panics with the message
`Sound is null` if the engine returned null, otherwise wraps the copied
voice. -/
def Sound.clone (alloc : Bool) (v : Voice) : Except String Voice :=
  match sfSound_copy alloc v with
  | none => .error "Sound is null"
  | some s => .ok s

/-- `Default for Sound`: `default()` just calls `Self::new()`. -/
def Sound.default (alloc : Bool) : Except String Voice :=
  Sound.new alloc

/-- `Sound::play`: forwards to `sfSound_play`. -/
def Sound.play (v : Voice) : Voice :=
  sfSound_play v

/-- `Sound::pause`: forwards to `sfSound_pause`. -/
def Sound.pause (v : Voice) : Voice :=
  sfSound_pause v

/-- `Sound::stop`: forwards to `sfSound_stop`. -/
def Sound.stop (v : Voice) : Voice :=
  sfSound_stop v

/-- `Sound::status`: `mem::transmute(ffi::sfSound_getStatus(...))`,
the engine's numeric status code reinterpreted as `SoundStatus`. -/
def Sound.status (v : Voice) : Option SoundStatus :=
  statusFromCode (sfSound_getStatus v)

/-- `Sound::set_looping`: forwards to `sfSound_setLoop`. -/
def Sound.set_looping (v : Voice) (l : Bool) : Voice :=
  sfSound_setLoop v l

/-- `Sound::is_looping`: forwards to `sfSound_getLoop`. -/
def Sound.is_looping (v : Voice) : Bool :=
  sfSound_getLoop v

/-- `Sound::playing_offset`: forwards to `sfSound_getPlayingOffset`. -/
def Sound.playing_offset (v : Voice) : Int :=
  sfSound_getPlayingOffset v

/-- `Sound::set_playing_offset`: forwards to
`sfSound_setPlayingOffset`. -/
def Sound.set_playing_offset (v : Voice) (t : Int) : Voice :=
  sfSound_setPlayingOffset v t

/-- `Sound::set_buffer`: forwards the buffer reference (by pointer,
no copy) to `sfSound_setBuffer`. -/
def Sound.set_buffer (v : Voice) (b : Nat) : Voice :=
  sfSound_setBuffer v b

/-- `Sound::buffer`: calls `sfSound_getBuffer`; returns `none` when
the engine pointer is null, otherwise the attached buffer. -/
def Sound.buffer (v : Voice) : Option Nat :=
  match sfSound_getBuffer v with
  | none => none
  | some p => some p

/-- `SoundSource::set_pitch` for `Sound`. -/
def Sound.set_pitch (v : Voice) (p : Rat) : Voice :=
  sfSound_setPitch v p

/-- `SoundSource::pitch` for `Sound`. -/
def Sound.pitch (v : Voice) : Rat :=
  sfSound_getPitch v

/-- `SoundSource::set_volume` for `Sound`. -/
def Sound.set_volume (v : Voice) (vol : Rat) : Voice :=
  sfSound_setVolume v vol

/-- `SoundSource::volume` for `Sound`. -/
def Sound.volume (v : Voice) : Rat :=
  sfSound_getVolume v

/-- `SoundSource::set_position` for `Sound`: passes `position.raw()`
to the engine. -/
def Sound.set_position (v : Voice) (p : Vector3f) : Voice :=
  sfSound_setPosition v p.raw

/-- `SoundSource::set_position3f` for `Sound`: builds the C struct
`sfVector3f \x7b x, y, z \x7d` and passes it to the engine. -/
def Sound.set_position3f (v : Voice) (x y z : Rat) : Voice :=
  sfSound_setPosition v ⟨x, y, z⟩

/-- `SoundSource::position` for `Sound`: `Vector3f::from_raw` of the
engine's position. -/
def Sound.position (v : Voice) : Vector3f :=
  Vector3f.from_raw (sfSound_getPosition v)

/-- `SoundSource::set_relative_to_listener` for `Sound`. -/
def Sound.set_relative_to_listener (v : Voice) (r : Bool) : Voice :=
  sfSound_setRelativeToListener v r

/-- `SoundSource::is_relative_to_listener` for `Sound`. -/
def Sound.is_relative_to_listener (v : Voice) : Bool :=
  sfSound_isRelativeToListener v

/-- `SoundSource::set_min_distance` for `Sound`. -/
def Sound.set_min_distance (v : Voice) (d : Rat) : Voice :=
  sfSound_setMinDistance v d

/-- `SoundSource::min_distance` for `Sound`. -/
def Sound.min_distance (v : Voice) : Rat :=
  sfSound_getMinDistance v

/-- `SoundSource::set_attenuation` for `Sound`. -/
def Sound.set_attenuation (v : Voice) (a : Rat) : Voice :=
  sfSound_setAttenuation v a

/-- `SoundSource::attenuation` for `Sound`. -/
def Sound.attenuation (v : Voice) : Rat :=
  sfSound_getAttenuation v

/-- C1: for `Sound::new`, `Sound::with_buffer` and `Clone for Sound`,
if the underlying engine cannot allocate a voice (the engine call
returns a null handle) the operation panics instead of returning a
value; otherwise it returns a handle wrapping the non-null engine
voice. -/
theorem sound_creation_panics_only_on_null_voice (alloc : Bool) (b : Nat) (v : Voice) :
    (sfSound_create alloc = none →
      Sound.new alloc = .error "sfSound_create returned null." ∧
      Sound.with_buffer alloc b = .error "sfSound_create returned null.") ∧
    (sfSound_copy alloc v = none → Sound.clone alloc v = .error "Sound is null") ∧
    (∀ w, sfSound_create alloc = some w →
      Sound.new alloc = .ok w ∧
      Sound.with_buffer alloc b = .ok (sfSound_setBuffer w b)) ∧
    (∀ w, sfSound_copy alloc v = some w → Sound.clone alloc v = .ok w) := by
  cases alloc <;>
    simp [Sound.new, Sound.with_buffer, Sound.clone, sfSound_create, sfSound_copy]

/-- Witness for C1: with allocation exhausted `Sound::new` panics with
the source's panic message; with allocation available `Clone` returns
the copied voice. -/
theorem sound_creation_panics_only_on_null_voice_witness :
    Sound.new false = Except.error "sfSound_create returned null." ∧
    Sound.clone true defaultVoice =
      Except.ok { defaultVoice with status := .stopped, offset := 0 } := by
  refine ⟨?_, ?_⟩
  · exact ((sound_creation_panics_only_on_null_voice false 0 defaultVoice).1 rfl).1
  · exact (sound_creation_panics_only_on_null_voice true 0 defaultVoice).2.2.2 _ rfl

/-- C2: for every handle, the numeric status code the engine returns
maps under the transmute to the valid member of the three-value set
matching the engine's live state — never an out-of-range
reinterpretation (`none`). -/
theorem sound_status_total (v : Voice) :
    Sound.status v = some v.status := by
  cases h : v.status <;>
    simp [Sound.status, sfSound_getStatus, statusCode, statusFromCode, h]

/-- C3: `play` always results in status Playing; from Stopped it begins
at offset 0, from Paused it keeps the current offset, and from Playing
it restarts at offset 0. -/
theorem sound_play_semantics (v : Voice) :
    (Sound.play v).status = .playing ∧
    (v.status = .stopped → (Sound.play v).offset = 0) ∧
    (v.status = .paused → (Sound.play v).offset = v.offset) ∧
    (v.status = .playing → (Sound.play v).offset = 0) := by
  cases h : v.status <;> simp [Sound.play, sfSound_play, h]

/-- Witness for C3: playing a voice paused at offset 5 yields status
Playing at offset 5. -/
theorem sound_play_semantics_witness :
    (Sound.play { defaultVoice with status := .paused, offset := 5 }).status = .playing ∧
    (Sound.play { defaultVoice with status := .paused, offset := 5 }).offset = 5 := by
  have h := sound_play_semantics { defaultVoice with status := .paused, offset := 5 }
  exact ⟨h.1, h.2.2.1 rfl⟩

/-- C4: after `stop` the status is Stopped and the offset is 0, from
any prior state; `stop` is idempotent, and on an already-Stopped handle
(whose offset is 0) it is a no-op. -/
theorem sound_stop_semantics (v : Voice) :
    (Sound.stop v).status = .stopped ∧
    (Sound.stop v).offset = 0 ∧
    Sound.stop (Sound.stop v) = Sound.stop v ∧
    (v.status = .stopped → v.offset = 0 → Sound.stop v = v) := by
  refine ⟨rfl, rfl, rfl, ?_⟩
  intro h1 h2
  cases v
  simp_all [Sound.stop, sfSound_stop]

/-- Witness for C4: stopping a fresh stopped voice leaves it stopped
and unchanged. -/
theorem sound_stop_semantics_witness :
    (Sound.stop defaultVoice).status = SoundStatus.stopped ∧
    Sound.stop defaultVoice = defaultVoice := by
  have h := sound_stop_semantics defaultVoice
  exact ⟨h.1, h.2.2.2 rfl rfl⟩

/-- C5: `pause` moves a Playing handle to Paused with the offset
frozen, and is a no-op on a Stopped or Paused handle. -/
theorem sound_pause_semantics (v : Voice) :
    (v.status = .playing →
      (Sound.pause v).status = .paused ∧ (Sound.pause v).offset = v.offset) ∧
    (v.status = .stopped → Sound.pause v = v) ∧
    (v.status = .paused → Sound.pause v = v) := by
  cases h : v.status <;> simp [Sound.pause, sfSound_pause, h]

/-- Witness for C5: pausing a voice playing at offset 7 freezes it at
offset 7 in status Paused; pausing a stopped voice changes nothing. -/
theorem sound_pause_semantics_witness :
    (Sound.pause { defaultVoice with status := .playing, offset := 7 }).status = SoundStatus.paused ∧
    (Sound.pause { defaultVoice with status := .playing, offset := 7 }).offset = 7 ∧
    Sound.pause defaultVoice = defaultVoice := by
  refine ⟨?_, ?_, ?_⟩
  · exact ((sound_pause_semantics { defaultVoice with status := .playing, offset := 7 }).1 rfl).1
  · exact ((sound_pause_semantics { defaultVoice with status := .playing, offset := 7 }).1 rfl).2
  · exact (sound_pause_semantics defaultVoice).2.1 rfl

/-- C6: every handle `Sound::new` returns successfully starts with
status Stopped, looping false, playing offset zero, and no attached
buffer. -/
theorem sound_new_initial_state (alloc : Bool) (v : Voice)
    (h : Sound.new alloc = .ok v) :
    Sound.status v = some SoundStatus.stopped ∧
    Sound.is_looping v = false ∧
    Sound.playing_offset v = 0 ∧
    Sound.buffer v = none := by
  cases alloc <;> simp [Sound.new, sfSound_create] at h
  subst h
  decide

/-- Witness for C6: the voice returned by a successful `Sound::new` is
stopped, not looping, at offset 0, with no buffer. -/
theorem sound_new_initial_state_witness :
    Sound.status defaultVoice = some SoundStatus.stopped ∧
    Sound.is_looping defaultVoice = false ∧
    Sound.playing_offset defaultVoice = 0 ∧
    Sound.buffer defaultVoice = none :=
  sound_new_initial_state true defaultVoice rfl

/-- C7: every scalar property in the pitch, volume, position,
relative-to-listener, min-distance, attenuation group round-trips
through its setter and getter unchanged for every value in its
documented domain: this layer applies no validation or
transformation. -/
theorem sound_scalar_property_round_trip (v : Voice) (p vol md att : Rat)
    (pos : Vector3f) (r : Bool)
    (hp : 0 < p) (hv0 : 0 ≤ vol) (hv1 : vol ≤ 100)
    (hmd : 0 ≤ md) (hatt : 0 ≤ att) :
    Sound.pitch (Sound.set_pitch v p) = p ∧
    Sound.volume (Sound.set_volume v vol) = vol ∧
    Sound.position (Sound.set_position v pos) = pos ∧
    Sound.is_relative_to_listener (Sound.set_relative_to_listener v r) = r ∧
    Sound.min_distance (Sound.set_min_distance v md) = md ∧
    Sound.attenuation (Sound.set_attenuation v att) = att :=
  ⟨rfl, rfl, rfl, rfl, rfl, rfl⟩

/-- Witness for C7: concrete in-domain values round-trip through the
setters and getters. -/
theorem sound_scalar_property_round_trip_witness :
    (0:Rat) < 2 ∧ (0:Rat) ≤ 50 ∧ (50:Rat) ≤ 100 ∧
    Sound.pitch (Sound.set_pitch defaultVoice 2) = 2 ∧
    Sound.volume (Sound.set_volume defaultVoice 50) = 50 ∧
    Sound.position (Sound.set_position defaultVoice ⟨1, 2, 3⟩) = ⟨1, 2, 3⟩ := by
  have h := sound_scalar_property_round_trip defaultVoice 2 50 3 4 ⟨1, 2, 3⟩ true
    (by norm_num) (by norm_num) (by norm_num) (by norm_num) (by norm_num)
  exact ⟨by norm_num, by norm_num, by norm_num, h.1, h.2.1, h.2.2.1⟩

/-- C8: `set_buffer` followed by `buffer` returns exactly the pointer
identity that was attached (the sample data is never copied, only the
reference is stored), and `set_buffer` leaves the playback status and
offset untouched. -/
theorem sound_set_buffer_identity_and_status (v : Voice) (b : Nat) :
    Sound.buffer (Sound.set_buffer v b) = some b ∧
    (Sound.set_buffer v b).status = v.status ∧
    (Sound.set_buffer v b).offset = v.offset :=
  ⟨rfl, rfl, rfl⟩

/-- C9: `Default for Sound` is observably identical to `Sound::new`:
the same result (the same panic on a null voice, the same fresh handle
otherwise) for every allocation outcome. -/
theorem sound_default_eq_new (alloc : Bool) :
    Sound.default alloc = Sound.new alloc :=
  rfl

/-- C10: the componentwise setter `set_position3f x y z` has exactly
the same effect on the handle as the vector setter `set_position`
applied to the vector with those components. -/
theorem sound_set_position3f_eq_set_position (v : Voice) (x y z : Rat) :
    Sound.set_position3f v x y z = Sound.set_position v ⟨x, y, z⟩ :=
  rfl
